import Mathlib

/-!
# Verification of the input-dispatch engine of a terminal budgeting application

This file gives a shallow embedding, in Lean 4, of the dispatch/state/popup core of
a Rust sheet-editing application (modules `controller`, `model` and `view`), and
proves properties of its key handling: command accumulation, trie-based command
matching, modal popups, and the selection/sheet operations the bound actions invoke.

Rust mutation is rendered as explicit state passing; machine integers are `Nat`
with explicit saturation bounds where the source uses `saturating_mul` /
`saturating_add`; calls that can panic (`unwrap`, `Vec::swap`, index underflow)
return `Option`, with `none` standing for a panic.
-/

namespace Budgeting

/-- Largest value of Rust `u32`. -/
def U32_MAX : Nat := 2 ^ 32 - 1

/-- Largest value of Rust `usize` (64-bit target). -/
def USIZE_MAX : Nat := 2 ^ 64 - 1

/-- Rust `u32::saturating_mul` on in-range values. -/
def u32SatMul (a b : Nat) : Nat := min (a * b) U32_MAX

/-- Rust `u32::saturating_add` on in-range values. -/
def u32SatAdd (a b : Nat) : Nat := min (a + b) U32_MAX

/-- Rust `usize::saturating_add` on in-range values. -/
def usizeSatAdd (a b : Nat) : Nat := min (a + b) USIZE_MAX

/-! ## Key events (model of `crossterm::event`) -/

/-- The modifier flags the program inspects (`KeyModifiers` bitflags): only
`CONTROL` and `SHIFT` are matched in the source; `alt` is carried so that the
exact-equality patterns of `handle_special_key` are faithful. -/
structure KeyModifiers where
  control : Bool
  shift : Bool
  alt : Bool
deriving DecidableEq, Repr

def KeyModifiers.NONE : KeyModifiers := ⟨false, false, false⟩

def KeyModifiers.CONTROL : KeyModifiers := ⟨true, false, false⟩

def KeyModifiers.SHIFT : KeyModifiers := ⟨false, true, false⟩

/-- The key codes the program matches on (`crossterm::event::KeyCode`). -/
inductive KeyCode where
  | char (c : Char)
  | backspace
  | enter
  | esc
  | up
  | down
  | left
  | right
  | pageUp
  | pageDown
  | home
  | endKey
  | delete
  | tab
deriving DecidableEq, Repr

inductive KeyEventKind where
  | press
  | release
  | repeatKind
deriving DecidableEq, Repr

structure KeyEvent where
  code : KeyCode
  modifiers : KeyModifiers
  kind : KeyEventKind
deriving DecidableEq, Repr

/-! ## Dates and fallible parsing (`model/sheets.rs`) -/

structure NaiveDate where
  year : Int
  month : Nat
  day : Nat
deriving DecidableEq, Repr

/-- `ParseTransactionMemberError` from `model/sheets.rs`: a human-readable message. -/
structure ParseTransactionMemberError where
  message : String
deriving DecidableEq, Repr

def isLeapYear (y : Int) : Bool := (y % 4 == 0 && y % 100 != 0) || y % 400 == 0

def daysInMonth (y : Int) (m : Nat) : Nat :=
  if m = 2 then (if isLeapYear y then 29 else 28)
  else if m = 4 ∨ m = 6 ∨ m = 9 ∨ m = 11 then 30
  else 31

/-- Reads a non-empty all-digit character list as a natural number. -/
def digitsToNat? (s : List Char) : Option Nat :=
  if s = [] ∨ ¬ s.all Char.isDigit then none
  else some (s.foldl (fun a c => a * 10 + (c.toNat - 48)) 0)

/-- Split a character list at a separator (the structural-recursion counterpart
of `str::split` on a single-character pattern). -/
def splitOnChar (sep : Char) : List Char → List (List Char)
  | [] => [[]]
  | c :: rest =>
    let r := splitOnChar sep rest
    if c = sep then [] :: r
    else
      match r with
      | [] => [[c]]
      | h :: tl => (c :: h) :: tl

/-- Models `chrono::NaiveDate::from_str` (an external library): the ISO-8601
`%Y-%m-%d` form, with calendar validity checks, mapped to the error messages of
`ParseTransactionMemberError::from` in `model/sheets.rs`. The claims proved in
this file depend only on which inputs succeed versus fail and on the fields of
the parsed value, not on chrono's full grammar. -/
def parseDate (s : String) : Except ParseTransactionMemberError NaiveDate :=
  let mk := fun (neg : Bool) (ys ms ds : List Char) =>
    match digitsToNat? ys, digitsToNat? ms, digitsToNat? ds with
    | some y, some mo, some d =>
      let yr : Int := if neg then -(y : Int) else (y : Int)
      if 1 ≤ mo ∧ mo ≤ 12 ∧ 1 ≤ d ∧ d ≤ daysInMonth yr mo then
        Except.ok ⟨yr, mo, d⟩
      else Except.error ⟨"Date is impossible"⟩
    | _, _, _ => Except.error ⟨"Invalid characters found"⟩
  match splitOnChar '-' s.data with
  | [ys, ms, ds] => mk false ys ms ds
  | [[], ys, ms, ds] => mk true ys ms ds
  | _ => Except.error ⟨"Bad format"⟩

/-- Models `f64::from_str` (standard library): amounts are embedded as rationals
and the accepted grammar is the plain decimal subset. The claims proved in this
file depend only on parse success versus failure and on fields left unchanged,
never on floating-point arithmetic. -/
def parseAmount (s : String) : Except ParseTransactionMemberError Rat :=
  let err : Except ParseTransactionMemberError Rat := Except.error ⟨"invalid float literal"⟩
  let unsigned := fun (t : List Char) (neg : Bool) =>
    match splitOnChar '.' t with
    | [ip] =>
      match digitsToNat? ip with
      | some n => Except.ok (if neg then -(n : Rat) else (n : Rat))
      | none => err
    | [ip, fp] =>
      match digitsToNat? ip, digitsToNat? fp with
      | some n, some f =>
        let q : Rat := (n : Rat) + (f : Rat) / ((10 : Rat) ^ fp.length)
        Except.ok (if neg then -q else q)
      | _, _ => err
    | _ => err
  match s.data with
  | '-' :: rest => unsigned rest true
  | '+' :: rest => unsigned rest false
  | _ => unsigned s.data false

/-! ## Transactions, sheets, and the model (`model/sheets.rs`, `model/mod.rs`) -/

structure Transaction where
  label : String
  date : NaiveDate
  amount : Rat
deriving DecidableEq, Repr

/-- Models the external clock (`chrono::Local::now`), used by
`Transaction::default` and the blank-date branch of the new-row wizard; a fixed
date, since no claim proved here depends on its value. -/
def localToday : NaiveDate := ⟨2026, 10, 12⟩

/-- `Transaction::default`: empty label, today's date, amount `0.0`. -/
def Transaction.default : Transaction := ⟨"", localToday, 0⟩

def Transaction.update_label (t : Transaction) (new_value : String) : Transaction :=
  { t with label := new_value }

def Transaction.update_date (t : Transaction) (new_value : String) :
    Except ParseTransactionMemberError Transaction :=
  (parseDate new_value).map fun d => { t with date := d }

def Transaction.update_amount (t : Transaction) (new_value : String) :
    Except ParseTransactionMemberError Transaction :=
  (parseAmount new_value).map fun a => { t with amount := a }

def Transaction.parse_date (s : String) : Except ParseTransactionMemberError NaiveDate :=
  parseDate s

def Transaction.parse_amount (s : String) : Except ParseTransactionMemberError Rat :=
  parseAmount s

/-- Sheet ids are sheet names (`pub type SheetId = String`). -/
abbrev SheetId := String

structure Sheet where
  name : String
  transactions : List Transaction
deriving DecidableEq, Repr

def Sheet.new (name : String) (transactions : List Transaction) : Sheet :=
  ⟨name, transactions⟩

structure Model where
  main_sheet : Sheet
  sheets : List Sheet
  filename : Option String
deriving DecidableEq, Repr

/-- Models `Vec::swap`, which panics when an index is out of bounds. -/
def listSwap {α : Type} (l : List α) (i j : Nat) : Option (List α) :=
  match l.get? i, l.get? j with
  | some a, some b => some ((l.set i b).set j a)
  | _, _ => none

def Model.get_sheet (m : Model) (index : Nat) : Option Sheet :=
  if index = 0 then some m.main_sheet else m.sheets.get? (index - 1)

/-- Functional counterpart of the writes done through `Model::get_sheet_mut`. -/
def Model.set_sheet (m : Model) (index : Nat) (sheet : Sheet) : Model :=
  if index = 0 then { m with main_sheet := sheet }
  else { m with sheets := m.sheets.set (index - 1) sheet }

def Model.sheet_count (m : Model) : Nat := 1 + m.sheets.length

def Model.create_sheet (m : Model) : Model :=
  { m with sheets :=
      m.sheets ++ [Sheet.new ("Sheet" ++ toString (m.sheets.length + 1)) [Transaction.default]] }

/-- `Model::delete_sheet`: asserts the index is not 0, then `Vec::remove` (which
panics out of bounds); `none` stands for either panic. -/
def Model.delete_sheet (m : Model) (index : Nat) : Option Model :=
  if index = 0 then none
  else if index - 1 < m.sheets.length then
    some { m with sheets := m.sheets.eraseIdx (index - 1) }
  else none

/-- `Model::update_transaction_member`; `none` stands for the `unwrap` panics on
an out-of-range sheet index or row. -/
def Model.update_transaction_member (m : Model) (sheet_index row col : Nat) (new : String) :
    Option (Except ParseTransactionMemberError Unit × Model) :=
  match m.get_sheet sheet_index with
  | none => none
  | some sheet =>
    match sheet.transactions.get? row with
    | none => none
    | some transaction =>
      let put := fun (t : Transaction) =>
        m.set_sheet sheet_index { sheet with transactions := sheet.transactions.set row t }
      match col with
      | 0 =>
        match transaction.update_date new with
        | Except.ok t => some (Except.ok (), put t)
        | Except.error e => some (Except.error e, m)
      | 1 => some (Except.ok (), put (transaction.update_label new))
      | 2 =>
        match transaction.update_amount new with
        | Except.ok t => some (Except.ok (), put t)
        | Except.error e => some (Except.error e, m)
      | _ => some (Except.ok (), m)

def Model.move_transaction_up (m : Model) (sheet_index row : Nat) : Option Model :=
  match m.get_sheet sheet_index with
  | none => none
  | some sheet =>
    (listSwap sheet.transactions row (row - 1)).map fun ts =>
      m.set_sheet sheet_index { sheet with transactions := ts }

/-- `Model::move_transaction_down`; `sheet.transactions.len() - 1` underflows
(panics) on an empty sheet, rendered as `none`. -/
def Model.move_transaction_down (m : Model) (sheet_index row : Nat) : Option Model :=
  match m.get_sheet sheet_index with
  | none => none
  | some sheet =>
    if sheet.transactions.length = 0 then none
    else
      (listSwap sheet.transactions row (min (row + 1) (sheet.transactions.length - 1))).map
        fun ts => m.set_sheet sheet_index { sheet with transactions := ts }

def Model.delete_row (m : Model) (sheet_index row : Nat) : Option (Transaction × Model) :=
  match m.get_sheet sheet_index with
  | none => none
  | some sheet =>
    match sheet.transactions.get? row with
    | none => none
    | some t =>
      some (t, m.set_sheet sheet_index
        { sheet with transactions := sheet.transactions.eraseIdx row })

/-- `Model::insert_row` (`Vec::insert` panics when the index exceeds the length). -/
def Model.insert_row (m : Model) (sheet_index row : Nat) (value : Transaction) : Option Model :=
  match m.get_sheet sheet_index with
  | none => none
  | some sheet =>
    if row ≤ sheet.transactions.length then
      some (m.set_sheet sheet_index
        { sheet with transactions := sheet.transactions.insertIdx row value })
    else none

def Model.copy_row (m : Model) (sheet_index row : Nat) : Option Transaction :=
  (m.get_sheet sheet_index).bind fun sheet => sheet.transactions.get? row

/-! ## The view layer (`view/mod.rs`, with ratatui widget state modelled) -/

/-- Row height of a displayed sheet (`ITEM_HEIGHT`). -/
def ITEM_HEIGHT : Nat := 1

/-- Models `ratatui::widgets::TableState` (external library): scroll offset,
selected row, selected column. -/
structure TableState where
  offset : Nat
  selected : Option Nat
  selected_column : Option Nat
deriving DecidableEq, Repr

/-- Models `ratatui::widgets::ScrollbarState` (external library): the content
length fixed at construction and the current position. -/
structure ScrollbarState where
  content_length : Nat
  position : Nat
deriving DecidableEq, Repr

/-- `SheetState` from `view/mod.rs`. -/
structure SheetState where
  table_state : TableState
  scroll_state : ScrollbarState
  visible_row_num : Nat
deriving DecidableEq, Repr

/-- `SheetState::new`: last row selected, scrollbar at the last row, zero
visible rows until first render. -/
def SheetState.new (sheet : Sheet) : SheetState :=
  { table_state := ⟨0, some (sheet.transactions.length - 1), none⟩
    scroll_state := ⟨(sheet.transactions.length - 1) * ITEM_HEIGHT,
      (sheet.transactions.length - 1) * ITEM_HEIGHT⟩
    visible_row_num := 0 }

def SheetState.scroll_to_row (st : SheetState) (row : Nat) : SheetState :=
  { st with table_state := { st.table_state with selected := some row }
            scroll_state := { st.scroll_state with position := row * ITEM_HEIGHT } }

/-- `scroll_to_first`: `TableState::select_first` selects row 0 and the
scrollbar resets to position 0 (ratatui semantics). -/
def SheetState.scroll_to_first (st : SheetState) : SheetState :=
  { st with table_state := { st.table_state with selected := some 0 }
            scroll_state := { st.scroll_state with position := 0 } }

/-- `scroll_to_last`: `TableState::select_last` selects `usize::MAX` (clamped at
render time by ratatui) and the scrollbar jumps to its content length. -/
def SheetState.scroll_to_last (st : SheetState) : SheetState :=
  { st with table_state := { st.table_state with selected := some USIZE_MAX }
            scroll_state := { st.scroll_state with position := st.scroll_state.content_length } }

/-- The `View`: per-sheet states keyed by sheet id (a `HashMap` in the source,
embedded as an association list) and the selected sheet index. -/
structure View where
  sheet_states : List (SheetId × SheetState)
  selected_sheet : Nat
deriving DecidableEq, Repr

/-- Replace the binding for `k`, or append it — the update-or-insert behaviour
of `HashMap::entry(..).or_insert_with(..)` followed by mutation. -/
def insertState (l : List (SheetId × SheetState)) (k : SheetId) (v : SheetState) :
    List (SheetId × SheetState) :=
  match l with
  | [] => [(k, v)]
  | (k', v') :: rest =>
    if k' = k then (k, v) :: rest else (k', v') :: insertState rest k v

def View.insert_state (view : View) (k : SheetId) (v : SheetState) : View :=
  { view with sheet_states := insertState view.sheet_states k v }

/-- `View::get_selected_sheet` (panics — `none` — when the index is invalid). -/
def View.get_selected_sheet (view : View) (m : Model) : Option Sheet :=
  m.get_sheet view.selected_sheet

/-- `View::get_state_of`: the stored state of the sheet, or a fresh one
(inserted into the map) on first view. -/
def View.get_state_of (view : View) (sheet : Sheet) : SheetState × View :=
  match List.lookup sheet.name view.sheet_states with
  | some st => (st, view)
  | none => (SheetState.new sheet, view.insert_state sheet.name (SheetState.new sheet))

/-- Read+update through `get_state_of`, as every view operation does. -/
def View.with_state (view : View) (sheet : Sheet) (f : SheetState → SheetState) : View :=
  let p := view.get_state_of sheet
  p.2.insert_state sheet.name (f p.1)

/-- `View::next_row` (`model.get_sheet(..).unwrap()` renders as `Option`). -/
def View.next_row (view : View) (m : Model) : Option View :=
  (m.get_sheet view.selected_sheet).map fun sheet =>
    view.with_state sheet fun st =>
      let len := max sheet.transactions.length 1
      let next :=
        match st.table_state.selected with
        | some i => if i < len - 1 then i + 1 else len - 1
        | none => len - 1
      st.scroll_to_row next

/-- `View::previous_row`. -/
def View.previous_row (view : View) (m : Model) : Option View :=
  (m.get_sheet view.selected_sheet).map fun sheet =>
    view.with_state sheet fun st =>
      let prev :=
        match st.table_state.selected with
        | some i => if 0 < i then i - 1 else 0
        | none => 0
      st.scroll_to_row prev

def View.first_row (view : View) (m : Model) : Option View :=
  (view.get_selected_sheet m).map fun sheet =>
    view.with_state sheet SheetState.scroll_to_first

def View.last_row (view : View) (m : Model) : Option View :=
  (view.get_selected_sheet m).map fun sheet =>
    view.with_state sheet SheetState.scroll_to_last

/-- `View::next_column` (`TableState::select_next_column`, ratatui: column 0
when none is selected, else one to the right, saturating). -/
def View.next_column (view : View) (m : Model) : Option View :=
  (view.get_selected_sheet m).map fun sheet =>
    view.with_state sheet fun st =>
      let nextCol :=
        match st.table_state.selected_column with
        | some i => min (i + 1) USIZE_MAX
        | none => 0
      { st with table_state := { st.table_state with selected_column := some nextCol } }

/-- `View::previous_column` (`TableState::select_previous_column`, ratatui:
`usize::MAX` when none is selected, else one to the left, saturating). -/
def View.previous_column (view : View) (m : Model) : Option View :=
  (view.get_selected_sheet m).map fun sheet =>
    view.with_state sheet fun st =>
      let prevCol :=
        match st.table_state.selected_column with
        | some i => i - 1
        | none => USIZE_MAX
      { st with table_state := { st.table_state with selected_column := some prevCol } }

/-- `View::up_by`: move the selection up by `count`, saturating at 0. -/
def View.up_by (view : View) (count : Nat) (m : Model) : Option View :=
  (view.get_selected_sheet m).map fun sheet =>
    view.with_state sheet fun st =>
      st.scroll_to_row ((st.table_state.selected.getD 0) - count)

/-- `View::down_by`: move the selection down by `count` with `saturating_add`
(no clamp against the sheet length). -/
def View.down_by (view : View) (count : Nat) (m : Model) : Option View :=
  (view.get_selected_sheet m).map fun sheet =>
    view.with_state sheet fun st =>
      st.scroll_to_row (usizeSatAdd (st.table_state.selected.getD 0) count)

def View.half_up (view : View) (m : Model) : Option View :=
  (view.get_selected_sheet m).map fun sheet =>
    view.with_state sheet fun st =>
      st.scroll_to_row ((st.table_state.selected.getD 0) - max (st.visible_row_num / 2) 1)

def View.half_down (view : View) (m : Model) : Option View :=
  (view.get_selected_sheet m).map fun sheet =>
    view.with_state sheet fun st =>
      st.scroll_to_row
        (usizeSatAdd (st.table_state.selected.getD 0) (max (st.visible_row_num / 2) 1))

/-- `View::next_sheet`: wrapping increment over the sheet count. -/
def View.next_sheet (view : View) (m : Model) : View :=
  let count := m.sheet_count
  if 0 < count then { view with selected_sheet := (view.selected_sheet + 1) % count }
  else view

/-- `View::previous_sheet`: wrapping decrement over the sheet count. -/
def View.previous_sheet (view : View) (m : Model) : View :=
  let count := m.sheet_count
  if 0 < count then { view with selected_sheet := (view.selected_sheet + count - 1) % count }
  else view

/-- Modelled from the spec: `View::get_selected_row` is called throughout the
controller but is not defined under `src/`; per §6 ("get the currently selected
cell's row/column if any") it yields the table cursor's row when that row denotes
a valid row of the given sheet, and nothing otherwise (so an empty sheet has no
selected row, matching the "selection-absent" policy of §7). -/
def View.get_selected_row (view : View) (sheet : Sheet) : Option Nat :=
  match List.lookup sheet.name view.sheet_states with
  | none => none
  | some st =>
    match st.table_state.selected with
    | some r => if r < sheet.transactions.length then some r else none
    | none => none

/-- Modelled from the spec: `View::get_selected_cell` is called by the cell-edit
action but is not defined under `src/`; per §6 it yields the cursor's (row,
column) when a valid row and a column are selected. -/
def View.get_selected_cell (view : View) (sheet : Sheet) : Option (Nat × Nat) :=
  match view.get_selected_row sheet with
  | none => none
  | some r =>
    match List.lookup sheet.name view.sheet_states with
    | none => none
    | some st =>
      match st.table_state.selected_column with
      | some c => some (r, c)
      | none => none

/-- Zero-pad a natural number to two digits, for date formatting. -/
def pad2 (n : Nat) : String :=
  if n < 10 then "0" ++ toString n else toString n

def formatDate (d : NaiveDate) : String :=
  toString d.year ++ "-" ++ pad2 d.month ++ "-" ++ pad2 d.day

/-- Modelled from the spec: `view::get_string_of_transaction_member` is called
by the cell-edit action and the renderer but is not defined under `src/`; per §6
("get a transaction's date/label/amount by (sheet index, row)") it renders the
column's member as text: column 0 the date, 1 the label, 2 the amount. -/
def get_string_of_transaction_member (t : Transaction) (col : Nat) : String :=
  match col with
  | 0 => formatDate t.date
  | 1 => t.label
  | 2 => toString t.amount
  | _ => ""

/-! ## Popups (`controller/popup/mod.rs`, `controller/popup/defaults.rs`)

The popup callbacks are `Rc` closures in the source; here they are
defunctionalized: the program constructs a closed set of callbacks, each
represented by its captured environment, and `applyInputCb` / `applyConfirmCb`
give their bodies. -/

/-- The `InputCallback` closures constructed in `defaults.rs`. -/
inductive InputCbK where
  | insertCb (sheet_index row col : Nat)
  | renameCb (sheet_index : Nat)
  | newRowDateCb (sheet_index row : Nat)
  | newRowLabelCb (sheet_index row : Nat) (date : NaiveDate)
  | newRowAmountCb (sheet_index row : Nat) (date : NaiveDate) (label : String)
deriving DecidableEq, Repr

/-- The `ConfirmCallback` closures. -/
inductive ConfirmCbK where
  | deleteSheetCb (sheet_index : Nat)
deriving DecidableEq, Repr

/-- `InputPopupInner`: the text area is its list of lines
(`tui_textarea::TextArea`, external library). -/
structure InputPopupInner where
  text_area : List String
  on_submit : InputCbK
  title : String
  subtitle : Option String
  error : Option String
deriving DecidableEq, Repr

structure InfoPopupInner where
  text : String
  title : String
  subtitle : Option String
  error : Option String
deriving DecidableEq, Repr

structure ConfirmPopupInner where
  prompt : String
  on_submit : ConfirmCbK
  title : String
  subtitle : Option String
  error : Option String
deriving DecidableEq, Repr

inductive Popup where
  | input (d : InputPopupInner)
  | info (d : InfoPopupInner)
  | confirm (d : ConfirmPopupInner)
deriving DecidableEq, Repr

/-- `InputPopupInner::new`: a default (single empty line) text area, the given
callback and title. -/
def InputPopupInner.new (title : String) (f : InputCbK) : InputPopupInner :=
  { text_area := [""], on_submit := f, title := title, subtitle := none, error := none }

def ConfirmPopupInner.new (title prompt : String) (f : ConfirmCbK) : ConfirmPopupInner :=
  { prompt := prompt, on_submit := f, title := title, subtitle := none, error := none }

/-- Models `tui_textarea::TextArea::insert_str` (external library), inserting at
the end of the buffer; the initial values the program inserts contain no
newlines, and no claim proved here depends on editor-cursor details. -/
def textAreaInsertStr (lines : List String) (s : String) : List String :=
  match lines.getLast? with
  | none => s.splitOn ("\n")
  | some l =>
    match s.splitOn ("\n") with
    | [] => lines
    | p :: ps => lines.dropLast ++ (l ++ p) :: ps

/-- Models `tui_textarea::TextArea::input` (external library): plain characters
are appended, backspace deletes the last character, other keys are ignored. No
claim proved here depends on this editing model. -/
def textAreaInput (key_event : KeyEvent) (lines : List String) : List String :=
  match key_event.code with
  | KeyCode.char c =>
    if key_event.modifiers.control then lines else textAreaInsertStr lines (String.mk [c])
  | KeyCode.backspace =>
    match lines.getLast? with
    | some l => lines.dropLast ++ [String.mk l.data.dropLast]
    | none => lines
  | _ => lines

/-- `PopupBehaviour::with_text`, dispatched over the variants as in the source. -/
def Popup.with_text (p : Popup) (s : String) : Popup :=
  match p with
  | .input d => .input { d with text_area := textAreaInsertStr d.text_area s }
  | .info d => .info { d with text := s }
  | .confirm d => .confirm { d with prompt := s }

def Popup.with_title (p : Popup) (s : String) : Popup :=
  match p with
  | .input d => .input { d with title := s }
  | .info d => .info { d with title := s }
  | .confirm d => .confirm { d with title := s }

def Popup.with_subtitle (p : Popup) (s : String) : Popup :=
  match p with
  | .input d => .input { d with subtitle := some s }
  | .info d => .info { d with subtitle := some s }
  | .confirm d => .confirm { d with subtitle := some s }

def Popup.with_error (p : Popup) (s : String) : Popup :=
  match p with
  | .input d => .input { d with error := some s }
  | .info d => .info { d with error := some s }
  | .confirm d => .confirm { d with error := some s }

/-- The Enter branch's text collapse: lines joined by a single space, then every
newline and carriage-return character removed (`String::retain`). -/
def collapseLines (lines : List String) : String :=
  String.mk ((String.intercalate (" ") lines).data.filter fun c => c != '\n' && c != '\r')

/-- The bodies of the `defaults.rs` input callbacks (`none` is a panic inside
the callback). -/
def applyInputCb (k : InputCbK) (popup : Popup) (text : String) (m : Model) :
    Option (Option Popup × Model) :=
  match k with
  | .insertCb sheet_index row col =>
    match m.update_transaction_member sheet_index row col text with
    | none => none
    | some (Except.ok _, m') => some (none, m')
    | some (Except.error e, m') => some (some (popup.with_error e.message), m')
  | .renameCb sheet_index =>
    match m.get_sheet sheet_index with
    | none => none
    | some sheet => some (none, m.set_sheet sheet_index { sheet with name := text })
  | .newRowDateCb sheet_index row =>
    if text = "" then
      some (some ((Popup.input (InputPopupInner.new ("Insert row")
        (InputCbK.newRowLabelCb sheet_index row localToday))).with_subtitle ("(Label)")), m)
    else
      match Transaction.parse_date text with
      | Except.ok date =>
        some (some ((Popup.input (InputPopupInner.new ("Insert row")
          (InputCbK.newRowLabelCb sheet_index row date))).with_subtitle ("(Label)")), m)
      | Except.error e => some (some (popup.with_error e.message), m)
  | .newRowLabelCb sheet_index row date =>
    some (some ((Popup.input (InputPopupInner.new ("Insert row")
      (InputCbK.newRowAmountCb sheet_index row date text))).with_subtitle ("(Amount)")), m)
  | .newRowAmountCb sheet_index row date label =>
    match Transaction.parse_amount text with
    | Except.ok amount =>
      match m.insert_row sheet_index row ⟨label, date, amount⟩ with
      | none => none
      | some m' => some (none, m')
    | Except.error e => some (some (popup.with_error e.message), m)

/-- The bodies of the confirm callbacks. -/
def applyConfirmCb (k : ConfirmCbK) (choice : Bool) (m : Model) : Option Model :=
  match k with
  | .deleteSheetCb sheet_index =>
    if choice then m.delete_sheet sheet_index else some m

/-- `InputPopup::handle_key_event`: Enter collapses the buffer and hands it to
the callback, Escape discards unconditionally, any other key edits the buffer. -/
def InputPopupInner.handle_key_event (d : InputPopupInner) (key_event : KeyEvent) (m : Model) :
    Option (Option Popup × Model) :=
  match key_event.code with
  | KeyCode.enter => applyInputCb d.on_submit (Popup.input d) (collapseLines d.text_area) m
  | KeyCode.esc => some (none, m)
  | _ => some (some (Popup.input { d with text_area := textAreaInput key_event d.text_area }), m)

/-- `InfoPopup::handle_key_event`: dismissed by Escape or `q`, every other key
is swallowed. -/
def InfoPopupInner.handle_key_event (d : InfoPopupInner) (key_event : KeyEvent) (m : Model) :
    Option (Option Popup × Model) :=
  match key_event.code with
  | KeyCode.esc => some (none, m)
  | KeyCode.char c => if c = 'q' then some (none, m) else some (some (Popup.info d), m)
  | _ => some (some (Popup.info d), m)

/-- `ConfirmPopup::handle_key_event`. -/
def ConfirmPopupInner.handle_key_event (d : ConfirmPopupInner) (key_event : KeyEvent)
    (m : Model) : Option (Option Popup × Model) :=
  match key_event.code with
  | KeyCode.enter => (applyConfirmCb d.on_submit true m).map fun m' => (none, m')
  | KeyCode.char c =>
    if c = 'y' then (applyConfirmCb d.on_submit true m).map fun m' => (none, m')
    else if c = 'n' then (applyConfirmCb d.on_submit false m).map fun m' => (none, m')
    else if c = 'q' then some (none, m)
    else some (some (Popup.confirm d), m)
  | KeyCode.esc => some (none, m)
  | _ => some (some (Popup.confirm d), m)

/-- The `enum_dispatch`ed `Popup::handle_key_event`. -/
def Popup.handle_key_event (p : Popup) (key_event : KeyEvent) (m : Model) :
    Option (Option Popup × Model) :=
  match p with
  | .input d => d.handle_key_event key_event m
  | .info d => d.handle_key_event key_event m
  | .confirm d => d.handle_key_event key_event m

/-! ## Controller state and the command trie (`controller/mod.rs`,
`controller/commands.rs`) -/

structure ControllerState where
  last_nums : List Nat
  last_chars : List Char
  popup : Option Popup
  exit : Bool
  register : Option Transaction
deriving DecidableEq, Repr

def ControllerState.default : ControllerState := ⟨[], [], none, false, none⟩

/-- `ControllerState::get_count_amount`: most-significant-first base-10 fold of
the pending digits with `u32` saturating arithmetic, then cast to `usize`. -/
def ControllerState.get_count_amount (cs : ControllerState) : Nat :=
  cs.last_nums.foldl (fun acc d => u32SatAdd (u32SatMul acc 10) d) 0

/-- Actions stored in the command trie (`type Action`); Rust's three `&mut`
parameters become explicit state passing, and `none` is a panic. -/
def ActionFn : Type :=
  View → Model → ControllerState → Option (View × Model × ControllerState)

/-- `CommandTrie`: children keyed by character (a `HashMap` in the source,
embedded as an association list) and an optional action at this node. -/
inductive CommandTrie where
  | node (children : List (Char × CommandTrie)) (action : Option ActionFn)

def CommandTrie.default : CommandTrie := .node [] none

def CommandTrie.children : CommandTrie → List (Char × CommandTrie)
  | .node c _ => c

def CommandTrie.action : CommandTrie → Option ActionFn
  | .node _ a => a

def CommandTrie.traverse (t : CommandTrie) (chars : List Char) : Option CommandTrie :=
  match chars with
  | [] => some t
  | c :: rest =>
    match List.lookup c t.children with
    | none => none
    | some child => child.traverse rest

def CommandTrie.next (t : CommandTrie) (c : Char) : Option CommandTrie :=
  List.lookup c t.children

def CommandTrie.has_children (t : CommandTrie) : Bool := !t.children.isEmpty

/-- Modelled from the spec: `CommandTrie::has_action` is called at the dispatch
site in `controller/mod.rs` but is not defined under `src/`; per the dispatch
contract (§2, §4.2 — a complete match invokes its action only when the matched
rule carries one) it reports whether this node carries an action. -/
def CommandTrie.has_action (t : CommandTrie) : Bool := t.action.isSome

/-- The `entry(c).or_default()` update of a child map. -/
def updateChild (l : List (Char × CommandTrie)) (c : Char) (t : CommandTrie) :
    List (Char × CommandTrie) :=
  match l with
  | [] => [(c, t)]
  | (c', t') :: rest => if c' = c then (c, t) :: rest else (c', t') :: updateChild rest c t

def CommandTrie.add_recursive : CommandTrie → List Char → ActionFn → CommandTrie
  | t, [], action => .node t.children (some action)
  | t, c :: rest, action =>
    let child := (List.lookup c t.children).getD CommandTrie.default
    .node (updateChild t.children c (child.add_recursive rest action)) t.action

/-- `CommandTrie::add`. The source asserts the command is non-empty, has no
whitespace, and is not a duplicate; every registration in `Controller::new`
satisfies these, so the asserts are modelled as passing. -/
def CommandTrie.add (t : CommandTrie) (command : String) (action : ActionFn) : CommandTrie :=
  t.add_recursive command.data action

/-! ### The actions registered by `Controller::new` -/

def act_q : ActionFn := fun view m cs => some (view, m, { cs with exit := true })

def act_ctrl_c : ActionFn := fun view m cs => some (view, m, { cs with exit := true })

/-- The `"j"` action: a bare `j` moves down one row; with a pending count it
moves down by `get_count_amount`. -/
def act_j : ActionFn := fun view m cs =>
  if cs.last_nums.isEmpty then (view.next_row m).map fun v' => (v', m, cs)
  else (view.down_by cs.get_count_amount m).map fun v' => (v', m, cs)

def act_k : ActionFn := fun view m cs =>
  if cs.last_nums.isEmpty then (view.previous_row m).map fun v' => (v', m, cs)
  else (view.up_by cs.get_count_amount m).map fun v' => (v', m, cs)

def act_h : ActionFn := fun view m cs => (view.previous_column m).map fun v' => (v', m, cs)

def act_l : ActionFn := fun view m cs => (view.next_column m).map fun v' => (v', m, cs)

/-- The `"gg"` action: jump to the first row. -/
def act_gg : ActionFn := fun view m cs => (view.first_row m).map fun v' => (v', m, cs)

def act_G : ActionFn := fun view m cs => (view.last_row m).map fun v' => (v', m, cs)

def act_H : ActionFn := fun view m cs => some (view.previous_sheet m, m, cs)

def act_L : ActionFn := fun view m cs => some (view.next_sheet m, m, cs)

/-- The `"J"` action: move the selected row down, when a row is selected. -/
def act_J : ActionFn := fun view m cs =>
  match view.get_selected_sheet m with
  | none => none
  | some sheet =>
    match view.get_selected_row sheet with
    | none => some (view, m, cs)
    | some row =>
      match m.move_transaction_down view.selected_sheet row with
      | none => none
      | some m' => (view.next_row m').map fun v' => (v', m', cs)

/-- The `"K"` action: move the selected row up, when a row is selected. -/
def act_K : ActionFn := fun view m cs =>
  match view.get_selected_sheet m with
  | none => none
  | some sheet =>
    match view.get_selected_row sheet with
    | none => some (view, m, cs)
    | some row =>
      match m.move_transaction_up view.selected_sheet row with
      | none => none
      | some m' => (view.previous_row m').map fun v' => (v', m', cs)

/-- The `"y"` action: yank the selected row into the register. -/
def act_y : ActionFn := fun view m cs =>
  match view.get_selected_sheet m with
  | none => none
  | some sheet =>
    match view.get_selected_row sheet with
    | none => some (view, m, cs)
    | some row =>
      (m.copy_row view.selected_sheet row).map fun t =>
        (view, m, { cs with register := some t })

/-- The `"d"` action: delete the selected row into the register. -/
def act_d : ActionFn := fun view m cs =>
  match view.get_selected_sheet m with
  | none => none
  | some sheet =>
    match view.get_selected_row sheet with
    | none => some (view, m, cs)
    | some row =>
      (m.delete_row view.selected_sheet row).map fun r =>
        (view, r.2, { cs with register := some r.1 })

/-- The `"p"` action: paste the register below the selected row. -/
def act_p : ActionFn := fun view m cs =>
  match view.get_selected_sheet m with
  | none => none
  | some sheet =>
    match view.get_selected_row sheet, cs.register with
    | some row, some t =>
      match m.insert_row view.selected_sheet (row + 1) t with
      | none => none
      | some m' => (view.next_row m').map fun v' => (v', m', cs)
    | _, _ => some (view, m, cs)

/-- The `"P"` action: paste the register above the selected row. -/
def act_P : ActionFn := fun view m cs =>
  match view.get_selected_sheet m with
  | none => none
  | some sheet =>
    match view.get_selected_row sheet, cs.register with
    | some row, some t =>
      (m.insert_row view.selected_sheet row t).map fun m' => (view, m', cs)
    | _, _ => some (view, m, cs)

def act_ctrl_d : ActionFn := fun view m cs => (view.half_down m).map fun v' => (v', m, cs)

def act_ctrl_u : ActionFn := fun view m cs => (view.half_up m).map fun v' => (v', m, cs)

def act_ctrl_t : ActionFn := fun view m cs => some (view, m.create_sheet, cs)

/-- The help text of `defaults::help`. -/
def helpText : String :=
  "Keymap help\n\nGeneral\n    Press <q> to quit.\n    Press <?> to open this window.\n    Press <Esc> to close any popup.\n        (You can press <q> to close popups without text input, like this one)\n\nNavigation\n    [h j k l]/[← ↑ ↓ →] for moving.\n    (count)[j k]/[↑ ↓] can be used when moving up and down.\n    [H L]/<S-←><S-→> for moving between sheets\n    <C-u>/<Pgup> and <C-d>/<Pgdn> for scrolling.\n    <gg>/<Home> and <G>/<End> for first and last rows.\n\nManipulation\n    <i> - change the value of the selected cell\n    <y> - yank/copy the current line\n    <d> - delete the current line\n        NOTE: There is currently no undo button.\n    <p> - put/paste the last yanked/deleted line below\n    <P> - put/paste the last yanked/deleted line above\n    <o> - insert new row below\n    <O> - insert new row above\n    <C-t> - create a new sheet\n    <C-r> - rename the current sheet\n"

/-- `defaults::help`: open the info popup. -/
def defaults.help : ActionFn := fun view m cs =>
  let p := ((Popup.info ⟨"", "", none, none⟩).with_text helpText).with_title ("Help")
  some (view, m, { cs with popup := some p })

/-- `defaults::insert_action`: open the cell-edit popup prefilled with the
selected cell's contents; a no-op when no cell is selected. -/
def defaults.insert_action : ActionFn := fun view m cs =>
  match view.get_selected_sheet m with
  | none => none
  | some sheet =>
    match view.get_selected_cell sheet with
    | none => some (view, m, cs)
    | some (row, col) =>
      match sheet.transactions.get? row with
      | none => none
      | some t =>
        let cell_contents := get_string_of_transaction_member t col
        let p := (Popup.input (InputPopupInner.new ("Insert/Update value")
          (InputCbK.insertCb view.selected_sheet row col))).with_text cell_contents
        some (view, m, { cs with popup := some p })

/-- `defaults::rename_sheet`. -/
def defaults.rename_sheet : ActionFn := fun view m cs =>
  match view.get_selected_sheet m with
  | none => none
  | some sheet =>
    let p := (Popup.input (InputPopupInner.new ("Rename sheet")
      (InputCbK.renameCb view.selected_sheet))).with_text sheet.name
    some (view, m, { cs with popup := some p })

/-- `defaults::new_row_below`: first step of the insert-row wizard. -/
def defaults.new_row_below : ActionFn := fun view m cs =>
  match view.get_selected_sheet m with
  | none => none
  | some sheet =>
    let row := (view.get_selected_row sheet).getD 0
    let p := (Popup.input (InputPopupInner.new ("Insert row")
      (InputCbK.newRowDateCb view.selected_sheet
        (min (row + 1) sheet.transactions.length)))).with_subtitle
      ("(Date - leave blank for today)")
    some (view, m, { cs with popup := some p })

/-- `defaults::new_row_above`. -/
def defaults.new_row_above : ActionFn := fun view m cs =>
  match view.get_selected_sheet m with
  | none => none
  | some sheet =>
    let row := (view.get_selected_row sheet).getD 0
    let p := (Popup.input (InputPopupInner.new ("Insert row")
      (InputCbK.newRowDateCb view.selected_sheet row))).with_subtitle
      ("(Date - leave blank for today)")
    some (view, m, { cs with popup := some p })

/-- Modelled from the spec: `defaults::delete_sheet` (bound to Ctrl-Delete) is
not under `src/`; per §4.4's Confirm variant it opens a confirmation modal whose
callback deletes the currently selected sheet on an affirmative answer and does
nothing on a negative one. -/
def defaults.delete_sheet : ActionFn := fun view m cs =>
  let p := Popup.confirm (ConfirmPopupInner.new ("Delete sheet") ("Delete this sheet?")
    (ConfirmCbK.deleteSheetCb view.selected_sheet))
  some (view, m, { cs with popup := some p })

/-! ### Dispatch (`Controller::handle_key_event` and helpers) -/

def Controller.reset_command (cs : ControllerState) : ControllerState :=
  { cs with last_chars := [], last_nums := [] }

/-- `Controller::handle_modified_char`: a canonical bracketed token such as
`<C-c>` pushed character by character. -/
def Controller.handle_modified_char (cs : ControllerState) (c : Char)
    (modifiers : KeyModifiers) : ControllerState :=
  { cs with last_chars :=
      cs.last_chars ++ ['<'] ++ (if modifiers.control then ['C', '-'] else []) ++ [c, '>'] }

def pushChars (cs : ControllerState) (l : List Char) : ControllerState :=
  { cs with last_chars := cs.last_chars ++ l }

/-- `Controller::handle_special_key`: ordered exact-modifier matches, then the
unmodified fallbacks. -/
def Controller.handle_special_key (cs : ControllerState) (key_event : KeyEvent) :
    ControllerState :=
  if key_event.modifiers = KeyModifiers.CONTROL ∧ key_event.code = KeyCode.up then
    Controller.handle_modified_char cs 'k' KeyModifiers.CONTROL
  else if key_event.modifiers = KeyModifiers.CONTROL ∧ key_event.code = KeyCode.down then
    Controller.handle_modified_char cs 'j' KeyModifiers.CONTROL
  else if key_event.modifiers = KeyModifiers.CONTROL ∧ key_event.code = KeyCode.left then
    Controller.handle_modified_char cs 'h' KeyModifiers.CONTROL
  else if key_event.modifiers = KeyModifiers.CONTROL ∧ key_event.code = KeyCode.right then
    Controller.handle_modified_char cs 'l' KeyModifiers.CONTROL
  else if key_event.modifiers = KeyModifiers.CONTROL ∧ key_event.code = KeyCode.delete then
    pushChars cs ['<', 'C', '-', 'D', 'e', 'l', '>']
  else if key_event.modifiers = KeyModifiers.SHIFT ∧ key_event.code = KeyCode.up then
    pushChars cs ['K']
  else if key_event.modifiers = KeyModifiers.SHIFT ∧ key_event.code = KeyCode.down then
    pushChars cs ['J']
  else if key_event.modifiers = KeyModifiers.SHIFT ∧ key_event.code = KeyCode.left then
    pushChars cs ['H']
  else if key_event.modifiers = KeyModifiers.SHIFT ∧ key_event.code = KeyCode.right then
    pushChars cs ['L']
  else
    match key_event.code with
    | KeyCode.up => pushChars cs ['k']
    | KeyCode.down => pushChars cs ['j']
    | KeyCode.left => pushChars cs ['h']
    | KeyCode.right => pushChars cs ['l']
    | KeyCode.pageUp => Controller.handle_modified_char cs 'u' KeyModifiers.CONTROL
    | KeyCode.pageDown => Controller.handle_modified_char cs 'd' KeyModifiers.CONTROL
    | KeyCode.home => pushChars cs ['g', 'g']
    | KeyCode.endKey => pushChars cs ['G']
    | _ => cs

/-- `Controller::try_action`: a complete command (leaf node carrying an action)
runs its action and then resets both accumulators; otherwise only the pending
digits are cleared. -/
def Controller.try_action (commands : CommandTrie) (cs : ControllerState) (m : Model)
    (view : View) : Option (ControllerState × Model × View) :=
  match commands.traverse cs.last_chars with
  | some command =>
    if !command.has_children && command.has_action then
      match command.action with
      | some a => (a view m cs).map fun r => (Controller.reset_command r.2.2, r.2.1, r.1)
      | none => none
    else some ({ cs with last_nums := [] }, m, view)
  | none => some ({ cs with last_nums := [] }, m, view)

/-- `Controller::handle_key_event`. An active popup consumes the event
exclusively; otherwise the key is accumulated (a digit early-returns without
consulting the command table) and `try_action` runs. -/
def Controller.handle_key_event (commands : CommandTrie) (cs : ControllerState)
    (key_event : KeyEvent) (m : Model) (view : View) :
    Option (ControllerState × Model × View) :=
  match cs.popup with
  | some popup =>
    (popup.handle_key_event key_event m).map fun r => ({ cs with popup := r.1 }, r.2, view)
  | none =>
    match key_event.code with
    | KeyCode.char c =>
      if key_event.modifiers.control then
        Controller.try_action commands
          (Controller.handle_modified_char cs c key_event.modifiers) m view
      else if c.isDigit then
        some ({ cs with last_nums := cs.last_nums ++ [c.toNat - 48] }, m, view)
      else
        Controller.try_action commands { cs with last_chars := cs.last_chars ++ [c] } m view
    | KeyCode.backspace => Controller.try_action commands (Controller.reset_command cs) m view
    | KeyCode.esc => Controller.try_action commands (Controller.reset_command cs) m view
    | _ => Controller.try_action commands (Controller.handle_special_key cs key_event) m view

/-- `Controller::new`'s command table, with the `"gg"` action abstracted so that
single invocation of the two-key command is provable for an arbitrary action;
the program's table is `commands` below, instantiating it with `act_gg`. -/
def mkCommands (gg : ActionFn) : CommandTrie :=
  CommandTrie.default
    |>.add ("q") act_q
    |>.add ("<C-c>") act_ctrl_c
    |>.add ("j") act_j
    |>.add ("k") act_k
    |>.add ("h") act_h
    |>.add ("l") act_l
    |>.add ("i") defaults.insert_action
    |>.add ("gg") gg
    |>.add ("G") act_G
    |>.add ("H") act_H
    |>.add ("L") act_L
    |>.add ("J") act_J
    |>.add ("K") act_K
    |>.add ("y") act_y
    |>.add ("d") act_d
    |>.add ("p") act_p
    |>.add ("P") act_P
    |>.add ("o") defaults.new_row_below
    |>.add ("O") defaults.new_row_above
    |>.add ("<C-d>") act_ctrl_d
    |>.add ("<C-u>") act_ctrl_u
    |>.add ("<C-t>") act_ctrl_t
    |>.add ("<C-r>") defaults.rename_sheet
    |>.add ("<C-Del>") defaults.delete_sheet
    |>.add ("?") defaults.help

/-- The command table built by `Controller::new`. -/
def commands : CommandTrie := mkCommands act_gg

/-- Iterated key handling: the event loop restricted to key-press events. -/
def Controller.run (commands : CommandTrie) :
    List KeyEvent → ControllerState → Model → View → Option (ControllerState × Model × View)
  | [], cs, m, view => some (cs, m, view)
  | ev :: rest, cs, m, view =>
    match Controller.handle_key_event commands cs ev m view with
    | none => none
    | some (cs', m', view') => Controller.run commands rest cs' m' view'

/-! ## Concrete fixtures used by counterexamples and witnesses -/

def tFix : Transaction := ⟨"t", ⟨2026, 1, 1⟩, 5⟩

/-- A model with a single (main) sheet of three transactions. -/
def mFix : Model := ⟨Sheet.new ("Sheet0") [tFix, tFix, tFix], [], none⟩

def stFix : SheetState := ⟨⟨0, some 0, some 1⟩, ⟨2, 0⟩, 0⟩

/-- A view on `mFix` with row 0 and column 1 of the main sheet selected. -/
def vFix : View := ⟨[("Sheet0", stFix)], 0⟩

/-- An unmodified key-press of the character `c`. -/
def pressChar (c : Char) : KeyEvent := ⟨KeyCode.char c, KeyModifiers.NONE, KeyEventKind.press⟩

/-! ## Helper lemmas -/

theorem lookup_insertState (l : List (SheetId × SheetState)) (k : SheetId) (v : SheetState) :
    List.lookup k (insertState l k v) = some v := by
  induction l with
  | nil => simp [insertState, List.lookup]
  | cons p rest ih =>
    obtain ⟨k', v'⟩ := p
    by_cases h : k' = k
    · simp [insertState, h, List.lookup]
    · simp only [insertState, if_neg h, List.lookup]
      have : (k == k') = false := by
        simp [beq_eq_false_iff_ne]
        exact fun hk => h hk.symm
      simp [this, ih]

theorem CommandTrie.traverse_append (t : CommandTrie) (l1 l2 : List Char) :
    t.traverse (l1 ++ l2) = (t.traverse l1).bind (fun n => n.traverse l2) := by
  induction l1 generalizing t with
  | nil => simp [CommandTrie.traverse]
  | cons c rest ih =>
    simp only [List.cons_append, CommandTrie.traverse]
    cases List.lookup c t.children with
    | none => simp
    | some child => simpa using ih child

theorem satFold_eq (ds : List Nat) : ∀ a : Nat,
    ds.foldl (fun acc d => u32SatAdd (u32SatMul acc 10) d) (min a U32_MAX)
      = min (ds.foldl (fun a d => a * 10 + d) a) U32_MAX := by
  induction ds with
  | nil => intro a; simp
  | cons d rest ih =>
    intro a
    have hM : U32_MAX = 4294967295 := rfl
    have step : u32SatAdd (u32SatMul (min a U32_MAX) 10) d = min (a * 10 + d) U32_MAX := by
      unfold u32SatAdd u32SatMul
      rw [hM]
      omega
    simp only [List.foldl_cons, step]
    exact ih (a * 10 + d)

/-! ## The claims -/

/-- **C1**: while a popup/modal is active (`ControllerState.popup = some p`),
every key event is routed exclusively to that popup's `handle_key_event`: the
result does not depend on the command table at all (so no command-table action
is evaluated or executed), the popup field is replaced by exactly the handler's
return value (`none` closes it, `some` continues it), and the accumulators,
exit flag, register and view are untouched. -/
theorem popup_modal_exclusivity (commandTable : CommandTrie) (cs : ControllerState)
    (p : Popup) (key_event : KeyEvent) (m : Model) (view : View) :
    Controller.handle_key_event commandTable { cs with popup := some p } key_event m view
      = (p.handle_key_event key_event m).map
          (fun r => ({ cs with popup := r.1 }, r.2, view)) := rfl

/-- **C5**: `get_count_amount` equals the most-significant-first base-10 fold of
the pending digits clamped at the `u32` maximum (saturating, neither wrapping
nor panicking), and it is 0 on an empty digit sequence — so a typed count is
detected by the emptiness of `last_nums`, not by the value 0. -/
theorem get_count_amount_spec (cs : ControllerState) :
    cs.get_count_amount = min (cs.last_nums.foldl (fun a d => a * 10 + d) 0) U32_MAX
    ∧ ({ cs with last_nums := [] } : ControllerState).get_count_amount = 0 := by
  constructor
  · have h := satFold_eq cs.last_nums 0
    rw [Nat.zero_min] at h
    exact h
  · rfl

/-- **C6**: for every text-input popup — any buffer contents, any completion
callback — the cancel key (Escape) closes the popup by returning `none` without
invoking the completion callback: the model comes back unchanged, whatever the
callback field holds. -/
theorem input_cancel_no_callback (d : InputPopupInner) (m : Model)
    (mods : KeyModifiers) (kind : KeyEventKind) :
    (Popup.input d).handle_key_event ⟨KeyCode.esc, mods, kind⟩ m = some (none, m) := rfl


/-- Whenever `try_action` succeeds, the pending digits end up empty, and the
pending chars are either untouched (no complete binding matched) or also empty
(a complete binding ran and `reset_command` fired). -/
theorem try_action_clears_nums (ct : CommandTrie) (cs : ControllerState) (m : Model)
    (view : View) (cs' : ControllerState) (m' : Model) (view' : View)
    (h : Controller.try_action ct cs m view = some (cs', m', view')) :
    cs'.last_nums = [] ∧ (cs'.last_chars = cs.last_chars ∨ cs'.last_chars = []) := by
  unfold Controller.try_action at h
  split at h
  · split at h
    · split at h
      · rename_i a hact
        rcases hres : (a view m cs) with _ | r
        · rw [hres] at h
          simp at h
        · rw [hres] at h
          simp only [Option.map_some', Option.some.injEq, Prod.mk.injEq] at h
          obtain ⟨h1, -, -⟩ := h
          subst h1
          exact ⟨rfl, Or.inr rfl⟩
      · simp at h
    · simp only [Option.some.injEq, Prod.mk.injEq] at h
      obtain ⟨h1, -, -⟩ := h
      subst h1
      exact ⟨rfl, Or.inl rfl⟩
  · simp only [Option.some.injEq, Prod.mk.injEq] at h
    obtain ⟨h1, -, -⟩ := h
    subst h1
    exact ⟨rfl, Or.inl rfl⟩

/-- **C2** counterexample: starting from a reset state, press `g` (leaving
pending chars `['g']`) and then the digit `1`: the digit is appended to
`last_nums` but `last_chars` is NOT cleared — both accumulators are non-empty
at once, refuting the claimed mutual exclusivity. -/
theorem accumulate_cex :
    (Controller.run commands [pressChar 'g', pressChar '1']
        ControllerState.default mFix vFix).map (fun r => (r.1.last_chars, r.1.last_nums))
      = some (['g'], [1])
    ∧ (['g'] : List Char) ≠ [] := ⟨rfl, by simp⟩

/-- **C2** (amended): a plain digit key appends its numeric value to the pending
digits and early-returns, leaving the pending chars UNCHANGED (the source never
clears them on a digit); a plain non-digit character is appended to the pending
chars and afterwards the pending digits are always empty — cleared directly when
no complete binding matched, or by the post-action reset (which also empties the
pending chars). -/
theorem accumulate_amended (cs : ControllerState) (m : Model) (view : View) (c : Char) :
    (c.isDigit = true →
      Controller.handle_key_event commands { cs with popup := none } (pressChar c) m view
        = some ({ cs with
                  popup := none
                  last_nums := cs.last_nums ++ [c.toNat - 48] }, m, view))
    ∧ (c.isDigit = false →
      ∀ cs' m' view',
        Controller.handle_key_event commands { cs with popup := none } (pressChar c) m view
          = some (cs', m', view') →
        cs'.last_nums = [] ∧ (cs'.last_chars = cs.last_chars ++ [c] ∨ cs'.last_chars = [])) := by
  constructor
  · intro h
    simp [Controller.handle_key_event, pressChar, KeyModifiers.NONE, h]
  · intro h cs' m' view' heq
    simp only [Controller.handle_key_event, pressChar, KeyModifiers.NONE, h] at heq
    have key := try_action_clears_nums commands
      { cs with
        popup := none
        last_chars := cs.last_chars ++ [c] } m view cs' m' view' (by simpa using heq)
    simpa using key

/-- **C2** witness. -/
theorem accumulate_amended_witness :
    Char.isDigit '7' = true ∧
    Controller.handle_key_event commands { ControllerState.default with popup := none }
        (pressChar '7') mFix vFix
      = some ({ ControllerState.default with
                popup := none
                last_nums := ControllerState.default.last_nums ++ ['7'.toNat - 48] },
          mFix, vFix) :=
  ⟨by decide, (accumulate_amended ControllerState.default mFix vFix '7').1 (by decide)⟩

/-- **C3** counterexample: from a reset state, `g` followed by `x` leaves the
pending chars holding BOTH characters `['g', 'x']`, not only the second one as
the claim states. -/
theorem gg_sequence_cex :
    (Controller.run commands [pressChar 'g', pressChar 'x']
        ControllerState.default mFix vFix).map (fun r => r.1.last_chars)
      = some ['g', 'x']
    ∧ (['g', 'x'] : List Char) ≠ ['x'] := ⟨rfl, by simp⟩


/-- The node at which the program's command table stores the `"gg"` action. -/
def ggLeaf : CommandTrie := CommandTrie.node [] (some act_gg)

/-- The child of the root reached by `g` in the program's command table. -/
def gNode : CommandTrie := CommandTrie.node [('g', ggLeaf)] none

/-- **C3** (amended): from a reset accumulator — for ANY command table whose
`g` node is an inner node and whose `gg` node is a leaf carrying an action `a` —
pressing `g` then `g` invokes `a` exactly once (the trace equals a single
application of `a`, seeing pending chars `['g','g']`) and then resets the
accumulator; the program's table is such a table, with `a` the jump-to-first-row
action `act_gg`; and pressing `g` then any other plain non-digit character
invokes no action and leaves the pending chars holding BOTH characters
`['g', c]` — not only the second one, contrary to the claim. -/
theorem gg_sequence_amended (cs : ControllerState) (m : Model) (view : View)
    (hpop : cs.popup = none) (hch : cs.last_chars = []) (hnum : cs.last_nums = []) :
    (∀ (ct : CommandTrie) (a : ActionFn) (n1 : CommandTrie),
      ct.traverse ['g'] = some n1 → n1.has_children = true →
      ct.traverse ['g', 'g'] = some (CommandTrie.node [] (some a)) →
      Controller.run ct [pressChar 'g', pressChar 'g'] cs m view
        = (a view m { cs with last_chars := ['g', 'g'] }).map
            (fun r => (Controller.reset_command r.2.2, r.2.1, r.1)))
    ∧ commands.traverse ['g'] = some gNode
    ∧ gNode.has_children = true
    ∧ commands.traverse ['g', 'g'] = some (CommandTrie.node [] (some act_gg))
    ∧ (∀ c : Char, c ≠ 'g' → c.isDigit = false →
        Controller.run commands [pressChar 'g', pressChar c] cs m view
          = some ({ cs with last_chars := ['g', c] }, m, view)) := by
  obtain ⟨nums, chars, pop, ex, reg⟩ := cs
  obtain rfl : nums = [] := hnum
  obtain rfl : chars = [] := hch
  obtain rfl : pop = none := hpop
  have hdg : Char.isDigit 'g' = false := by decide
  refine ⟨?_, rfl, rfl, rfl, ?_⟩
  · intro ct a n1 h1 hchild h2
    have e1 : Controller.handle_key_event ct ⟨[], [], none, ex, reg⟩ (pressChar 'g') m view
        = Controller.try_action ct ⟨[], ['g'], none, ex, reg⟩ m view := by
      simp [Controller.handle_key_event, pressChar, KeyModifiers.NONE, hdg]
    have e2 : Controller.try_action ct ⟨[], ['g'], none, ex, reg⟩ m view
        = some (⟨[], ['g'], none, ex, reg⟩, m, view) := by
      simp only [Controller.try_action]
      rw [h1]
      simp [hchild]
    have e3 : Controller.handle_key_event ct ⟨[], ['g'], none, ex, reg⟩ (pressChar 'g') m view
        = Controller.try_action ct ⟨[], ['g', 'g'], none, ex, reg⟩ m view := by
      simp [Controller.handle_key_event, pressChar, KeyModifiers.NONE, hdg]
    have e4 : Controller.try_action ct ⟨[], ['g', 'g'], none, ex, reg⟩ m view
        = (a view m ⟨[], ['g', 'g'], none, ex, reg⟩).map
            (fun r => (Controller.reset_command r.2.2, r.2.1, r.1)) := by
      simp only [Controller.try_action]
      rw [h2]
      simp [CommandTrie.has_children, CommandTrie.has_action, CommandTrie.children,
        CommandTrie.action]
    show Controller.run ct [pressChar 'g', pressChar 'g'] ⟨[], [], none, ex, reg⟩ m view
      = (a view m ⟨[], ['g', 'g'], none, ex, reg⟩).map
          (fun r => (Controller.reset_command r.2.2, r.2.1, r.1))
    simp only [Controller.run, e1, e2, e3, e4]
    rcases a view m ⟨[], ['g', 'g'], none, ex, reg⟩ with _ | ⟨v2, m2, cs2⟩ <;>
      simp [Controller.run]
  · intro c hcg hcd
    have hlk : List.lookup c ([('g', ggLeaf)] : List (Char × CommandTrie)) = none := by
      have hb : (c == 'g') = false := beq_eq_false_iff_ne.mpr hcg
      simp [List.lookup, hb]
    have htr : commands.traverse ['g', c] = none := by
      have hroot : commands.traverse ['g'] = some gNode := rfl
      have hsplit : (['g', c] : List Char) = ['g'] ++ [c] := rfl
      rw [hsplit, CommandTrie.traverse_append, hroot]
      simp [CommandTrie.traverse, CommandTrie.children, gNode, hlk]
    have e1 : Controller.handle_key_event commands ⟨[], [], none, ex, reg⟩ (pressChar 'g')
        m view = Controller.try_action commands ⟨[], ['g'], none, ex, reg⟩ m view := by
      simp [Controller.handle_key_event, pressChar, KeyModifiers.NONE, hdg]
    have e2 : Controller.try_action commands ⟨[], ['g'], none, ex, reg⟩ m view
        = some (⟨[], ['g'], none, ex, reg⟩, m, view) := by
      simp only [Controller.try_action]
      rw [show commands.traverse ['g'] = some gNode from rfl]
      simp [gNode, ggLeaf, CommandTrie.has_children, CommandTrie.children]
    have e3 : Controller.handle_key_event commands ⟨[], ['g'], none, ex, reg⟩ (pressChar c)
        m view = Controller.try_action commands ⟨[], ['g', c], none, ex, reg⟩ m view := by
      simp [Controller.handle_key_event, pressChar, KeyModifiers.NONE, hcd]
    have e4 : Controller.try_action commands ⟨[], ['g', c], none, ex, reg⟩ m view
        = some (⟨[], ['g', c], none, ex, reg⟩, m, view) := by
      simp only [Controller.try_action]
      rw [htr]
    show Controller.run commands [pressChar 'g', pressChar c] ⟨[], [], none, ex, reg⟩ m view
      = some (⟨[], ['g', c], none, ex, reg⟩, m, view)
    simp only [Controller.run, e1, e2, e3, e4]

/-- **C3** witness. -/
theorem gg_sequence_amended_witness :
    ControllerState.default.popup = none ∧ ControllerState.default.last_chars = []
    ∧ ControllerState.default.last_nums = []
    ∧ commands.traverse ['g'] = some gNode ∧ gNode.has_children = true
    ∧ commands.traverse ['g', 'g'] = some (CommandTrie.node [] (some act_gg))
    ∧ Controller.run commands [pressChar 'g', pressChar 'g']
        ControllerState.default mFix vFix
      = (act_gg vFix mFix { ControllerState.default with last_chars := ['g', 'g'] }).map
          (fun r => (Controller.reset_command r.2.2, r.2.1, r.1)) :=
  ⟨rfl, rfl, rfl, rfl, rfl, rfl,
    (gg_sequence_amended ControllerState.default mFix vFix rfl rfl rfl).1
      commands act_gg gNode rfl rfl rfl⟩


/-- **C4** counterexample: on the 3-row sheet of `mFix` with row 0 selected,
typing `1`, `0`, `j` stores selection row 10 — beyond the last row index 2 —
instead of clamping to the last row as the claim states. -/
theorem count_move_cex :
    (Controller.run commands [pressChar '1', pressChar '0', pressChar 'j']
        ControllerState.default mFix vFix).map
        (fun r => r.2.2.sheet_states.map (fun p => (p.1, p.2.table_state.selected)))
      = some [("Sheet0", some 10)]
    ∧ mFix.main_sheet.transactions.length = 3 ∧ (10 : Nat) ≠ 2 := ⟨rfl, rfl, by decide⟩

/-- **C4** (amended): typing `1`, `0`, then `j` moves the stored row selection
down by exactly 10 WITHOUT clamping to the sheet's last row (`down_by` only
saturates at `usize::MAX`), and clears the pending count; a subsequent bare `j`
then sets the selection to `min(previous + 1, last row)` — one further down when
the stored selection is still above the last row index, else snapping to the
last row. -/
theorem count_move_amended (m : Model) (view : View) (sheet : Sheet) (stt : SheetState)
    (i : Nat) (cs : ControllerState)
    (hpop : cs.popup = none) (hch : cs.last_chars = []) (hnum : cs.last_nums = [])
    (hsheet : m.get_sheet view.selected_sheet = some sheet)
    (hst : List.lookup sheet.name view.sheet_states = some stt)
    (hsel : stt.table_state.selected = some i) (hsat : i + 10 ≤ USIZE_MAX) :
    Controller.run commands [pressChar '1', pressChar '0', pressChar 'j'] cs m view
      = some (Controller.reset_command cs, m,
          view.insert_state sheet.name (stt.scroll_to_row (i + 10)))
    ∧ Controller.handle_key_event commands (Controller.reset_command cs) (pressChar 'j') m
        (view.insert_state sheet.name (stt.scroll_to_row (i + 10)))
      = some (Controller.reset_command cs, m,
          (view.insert_state sheet.name (stt.scroll_to_row (i + 10))).insert_state sheet.name
            ((stt.scroll_to_row (i + 10)).scroll_to_row
              (if i + 10 < max sheet.transactions.length 1 - 1 then i + 10 + 1
               else max sheet.transactions.length 1 - 1))) := by
  obtain ⟨nums, chars, pop, ex, reg⟩ := cs
  obtain rfl : nums = [] := hnum
  obtain rfl : chars = [] := hch
  obtain rfl : pop = none := hpop
  have hdj : Char.isDigit 'j' = false := by decide
  have hj : commands.traverse ['j'] = some (CommandTrie.node [] (some act_j)) := rfl
  have hmin : min (i + 10) USIZE_MAX = i + 10 := Nat.min_eq_left hsat
  constructor
  · have e11 : Controller.handle_key_event commands ⟨[], [], none, ex, reg⟩ (pressChar '1')
        m view = some (⟨[1], [], none, ex, reg⟩, m, view) := rfl
    have e12 : Controller.handle_key_event commands ⟨[1], [], none, ex, reg⟩ (pressChar '0')
        m view = some (⟨[1, 0], [], none, ex, reg⟩, m, view) := rfl
    have e13 : Controller.handle_key_event commands ⟨[1, 0], [], none, ex, reg⟩ (pressChar 'j')
        m view = Controller.try_action commands ⟨[1, 0], ['j'], none, ex, reg⟩ m view := by
      simp [Controller.handle_key_event, pressChar, KeyModifiers.NONE, hdj]
    have e14 : Controller.try_action commands ⟨[1, 0], ['j'], none, ex, reg⟩ m view
        = (act_j view m ⟨[1, 0], ['j'], none, ex, reg⟩).map
            (fun r => (Controller.reset_command r.2.2, r.2.1, r.1)) := by
      simp only [Controller.try_action]
      rw [hj]
      simp [CommandTrie.has_children, CommandTrie.has_action, CommandTrie.children,
        CommandTrie.action]
    have hcount : (⟨[1, 0], ['j'], none, ex, reg⟩ : ControllerState).get_count_amount = 10 :=
      rfl
    have e15 : act_j view m ⟨[1, 0], ['j'], none, ex, reg⟩
        = some (view.insert_state sheet.name (stt.scroll_to_row (i + 10)), m,
            ⟨[1, 0], ['j'], none, ex, reg⟩) := by
      simp [act_j, hcount, View.down_by, View.get_selected_sheet, hsheet, View.with_state,
        View.get_state_of, hst, hsel, usizeSatAdd, hmin, View.insert_state]
    simp only [Controller.run, e11, e12, e13, e14, e15, Option.map_some']
    rfl
  · have e21 : Controller.handle_key_event commands ⟨[], [], none, ex, reg⟩ (pressChar 'j')
        m (view.insert_state sheet.name (stt.scroll_to_row (i + 10)))
        = Controller.try_action commands ⟨[], ['j'], none, ex, reg⟩ m
            (view.insert_state sheet.name (stt.scroll_to_row (i + 10))) := by
      simp [Controller.handle_key_event, pressChar, KeyModifiers.NONE, hdj]
    have e22 : Controller.try_action commands ⟨[], ['j'], none, ex, reg⟩ m
        (view.insert_state sheet.name (stt.scroll_to_row (i + 10)))
        = (act_j (view.insert_state sheet.name (stt.scroll_to_row (i + 10))) m
            ⟨[], ['j'], none, ex, reg⟩).map
            (fun r => (Controller.reset_command r.2.2, r.2.1, r.1)) := by
      simp only [Controller.try_action]
      rw [hj]
      simp [CommandTrie.has_children, CommandTrie.has_action, CommandTrie.children,
        CommandTrie.action]
    have e23 : act_j (view.insert_state sheet.name (stt.scroll_to_row (i + 10))) m
        ⟨[], ['j'], none, ex, reg⟩
        = some ((view.insert_state sheet.name (stt.scroll_to_row (i + 10))).insert_state
            sheet.name ((stt.scroll_to_row (i + 10)).scroll_to_row
              (if i + 10 < max sheet.transactions.length 1 - 1 then i + 10 + 1
               else max sheet.transactions.length 1 - 1)), m,
            ⟨[], ['j'], none, ex, reg⟩) := by
      simp [act_j, View.next_row, View.with_state, View.get_state_of, View.insert_state,
        lookup_insertState, SheetState.scroll_to_row, hsheet]
    show Controller.handle_key_event commands ⟨[], [], none, ex, reg⟩ (pressChar 'j') m
        (view.insert_state sheet.name (stt.scroll_to_row (i + 10))) = _
    rw [e21, e22, e23]
    rfl

/-- **C4** witness. -/
theorem count_move_amended_witness :
    ControllerState.default.popup = none ∧ ControllerState.default.last_chars = []
    ∧ ControllerState.default.last_nums = []
    ∧ mFix.get_sheet vFix.selected_sheet = some mFix.main_sheet
    ∧ List.lookup mFix.main_sheet.name vFix.sheet_states = some stFix
    ∧ stFix.table_state.selected = some 0 ∧ 0 + 10 ≤ USIZE_MAX
    ∧ Controller.run commands [pressChar '1', pressChar '0', pressChar 'j']
        ControllerState.default mFix vFix
      = some (Controller.reset_command ControllerState.default, mFix,
          vFix.insert_state mFix.main_sheet.name (stFix.scroll_to_row (0 + 10))) :=
  ⟨rfl, rfl, rfl, rfl, rfl, rfl, by norm_num [USIZE_MAX],
    (count_move_amended mFix vFix mFix.main_sheet stFix 0 ControllerState.default
      rfl rfl rfl rfl rfl rfl (by norm_num [USIZE_MAX])).1⟩


/-- A view that has never displayed any sheet: no stored sheet states. -/
def vEmptyFix : View := ⟨[], 0⟩

/-- Two views with equal fields are equal. -/
theorem viewFieldsEq (v w : View) (h1 : v.sheet_states = w.sheet_states)
    (h2 : v.selected_sheet = w.selected_sheet) : v = w := by
  cases v; cases w; simp_all

/-- A view on `mFix` with a row selected but no column selected: a selected row
exists but no selected cell does. -/
def vRowNoColFix : View := ⟨[("Sheet0", ⟨⟨0, some 0, none⟩, ⟨2, 0⟩, 0⟩)], 0⟩

/-- **C8**: for a valid current sheet, each row-selection-dependent action —
move row up `K`, move row down `J`, yank `y`, delete `d`, paste below `p`,
paste above `P` — returns view, model and controller state exactly unchanged
whenever no row is selected; and the edit-cell action `i` does so whenever no
CELL is selected (which covers both the no-row states and the states with a
selected row but no selected column). The model, the clipboard register and the
popup field are untouched, and no panic occurs. -/
theorem no_selection_noop (view : View) (m : Model) (cs : ControllerState) (sheet : Sheet)
    (hsheet : view.get_selected_sheet m = some sheet) :
    (view.get_selected_row sheet = none →
      act_K view m cs = some (view, m, cs) ∧ act_J view m cs = some (view, m, cs)
      ∧ act_y view m cs = some (view, m, cs) ∧ act_d view m cs = some (view, m, cs)
      ∧ act_p view m cs = some (view, m, cs) ∧ act_P view m cs = some (view, m, cs))
    ∧ (view.get_selected_cell sheet = none →
      defaults.insert_action view m cs = some (view, m, cs)) := by
  constructor
  · intro hrow
    refine ⟨?_, ?_, ?_, ?_, ?_, ?_⟩ <;>
      simp [act_K, act_J, act_y, act_d, act_p, act_P, hsheet, hrow]
  · intro hcell
    simp [defaults.insert_action, hsheet, hcell]

/-- **C8** witness: one instance with no selected row at all, and one with a
selected row but no selected column — hence no selected cell. -/
theorem no_selection_noop_witness :
    vEmptyFix.get_selected_sheet mFix = some mFix.main_sheet
    ∧ vEmptyFix.get_selected_row mFix.main_sheet = none
    ∧ act_d vEmptyFix mFix ControllerState.default
        = some (vEmptyFix, mFix, ControllerState.default)
    ∧ vRowNoColFix.get_selected_sheet mFix = some mFix.main_sheet
    ∧ vRowNoColFix.get_selected_row mFix.main_sheet = some 0
    ∧ vRowNoColFix.get_selected_cell mFix.main_sheet = none
    ∧ defaults.insert_action vRowNoColFix mFix ControllerState.default
        = some (vRowNoColFix, mFix, ControllerState.default) :=
  ⟨rfl, rfl,
    ((no_selection_noop vEmptyFix mFix ControllerState.default mFix.main_sheet
      rfl).1 rfl).2.2.2.1,
    rfl, rfl, rfl,
    (no_selection_noop vRowNoColFix mFix ControllerState.default mFix.main_sheet
      rfl).2 rfl⟩

/-- **C9**: with the selected sheet index in range, invoking `next_sheet`
`sheet_count` times returns the view (and in particular the selected index) to
its original value; `previous_sheet` followed by `next_sheet` is the identity;
and both operations wrap modulo the sheet count. -/
theorem sheet_cycling (m : Model) (view : View) (h : view.selected_sheet < m.sheet_count) :
    (fun v => View.next_sheet v m)^[m.sheet_count] view = view
    ∧ View.next_sheet (View.previous_sheet view m) m = view
    ∧ (View.next_sheet view m).selected_sheet = (view.selected_sheet + 1) % m.sheet_count
    ∧ (View.previous_sheet view m).selected_sheet
        = (view.selected_sheet + m.sheet_count - 1) % m.sheet_count := by
  have hc : 0 < m.sheet_count := by unfold Model.sheet_count; omega
  have hnext : ∀ v : View, View.next_sheet v m
      = { v with selected_sheet := (v.selected_sheet + 1) % m.sheet_count } := by
    intro v; simp [View.next_sheet, hc]
  have hprev : ∀ v : View, View.previous_sheet v m
      = { v with selected_sheet :=
            (v.selected_sheet + m.sheet_count - 1) % m.sheet_count } := by
    intro v; simp [View.previous_sheet, hc]
  have hsel : ∀ (k : Nat) (v : View),
      ((fun v => View.next_sheet v m)^[k + 1] v).selected_sheet
        = (v.selected_sheet + (k + 1)) % m.sheet_count := by
    intro k
    induction k with
    | zero => intro v; simp [hnext]
    | succ n ih =>
      intro v
      rw [Function.iterate_succ_apply', hnext]
      show (((fun v => View.next_sheet v m)^[n + 1] v).selected_sheet + 1) % m.sheet_count
        = (v.selected_sheet + (n + 1 + 1)) % m.sheet_count
      rw [ih v, Nat.mod_add_mod, Nat.add_assoc]
  have hstates : ∀ (k : Nat) (v : View),
      ((fun v => View.next_sheet v m)^[k] v).sheet_states = v.sheet_states := by
    intro k
    induction k with
    | zero => intro v; rfl
    | succ n ih =>
      intro v
      rw [Function.iterate_succ_apply', hnext]
      exact ih v
  refine ⟨?_, ?_, ?_, ?_⟩
  · have h1 : ((fun v => View.next_sheet v m)^[m.sheet_count] view).selected_sheet
        = view.selected_sheet := by
      obtain ⟨c, hceq⟩ : ∃ c, m.sheet_count = c + 1 := ⟨m.sheet_count - 1, by omega⟩
      rw [hceq, hsel c view, ← hceq, Nat.add_mod_right]
      exact Nat.mod_eq_of_lt h
    exact viewFieldsEq _ _ (hstates m.sheet_count view) h1
  · apply viewFieldsEq
    · rw [hnext, hprev]
    · rw [hnext, hprev]
      show ((view.selected_sheet + m.sheet_count - 1) % m.sheet_count + 1) % m.sheet_count
        = view.selected_sheet
      rw [Nat.mod_add_mod]
      have harith : view.selected_sheet + m.sheet_count - 1 + 1
          = view.selected_sheet + m.sheet_count := by omega
      rw [harith, Nat.add_mod_right]
      exact Nat.mod_eq_of_lt h
  · rw [hnext]
  · rw [hprev]

/-- **C9** witness. -/
theorem sheet_cycling_witness :
    vFix.selected_sheet < mFix.sheet_count
    ∧ (fun v => View.next_sheet v mFix)^[mFix.sheet_count] vFix = vFix :=
  ⟨by decide, (sheet_cycling mFix vFix (by decide)).1⟩


/-- **C7**: pressing Enter on a text-input popup collapses the buffer to a
single line (lines joined by one space, every newline and carriage-return
removed — the collapsed text provably contains neither), invokes the completion
callback with that text and the model, and the popup's fate is exactly the
callback's return value; for the cell-edit callback on the label column with
valid indices the popup closes (`none`) and the model holds exactly the
submitted collapsed text as the label, while on the date column with text that
fails to parse the same popup is re-displayed carrying the error message and
the model is unchanged. -/
theorem input_submit_spec :
    (∀ (d : InputPopupInner) (m : Model) (mods : KeyModifiers) (kind : KeyEventKind),
      (Popup.input d).handle_key_event ⟨KeyCode.enter, mods, kind⟩ m
        = applyInputCb d.on_submit (Popup.input d) (collapseLines d.text_area) m)
    ∧ (∀ lines : List String, ∀ c ∈ (collapseLines lines).data, c ≠ '\n' ∧ c ≠ '\r')
    ∧ (∀ (si row : Nat) (d : InputPopupInner) (m : Model) (sheet : Sheet) (t : Transaction),
        d.on_submit = InputCbK.insertCb si row 1 →
        m.get_sheet si = some sheet → sheet.transactions.get? row = some t →
        ∀ (mods : KeyModifiers) (kind : KeyEventKind),
        (Popup.input d).handle_key_event ⟨KeyCode.enter, mods, kind⟩ m
          = some (none, m.set_sheet si (Sheet.new sheet.name
              (sheet.transactions.set row (t.update_label (collapseLines d.text_area))))))
    ∧ (∀ (si row : Nat) (d : InputPopupInner) (m : Model) (sheet : Sheet) (t : Transaction)
        (e : ParseTransactionMemberError),
        d.on_submit = InputCbK.insertCb si row 0 →
        m.get_sheet si = some sheet → sheet.transactions.get? row = some t →
        parseDate (collapseLines d.text_area) = Except.error e →
        ∀ (mods : KeyModifiers) (kind : KeyEventKind),
        (Popup.input d).handle_key_event ⟨KeyCode.enter, mods, kind⟩ m
          = some (some ((Popup.input d).with_error e.message), m)) := by
  refine ⟨?_, ?_, ?_, ?_⟩
  · intro d m mods kind
    rfl
  · intro lines c hc
    simp only [collapseLines] at hc
    rw [List.mem_filter] at hc
    obtain ⟨-, hp⟩ := hc
    simp only [Bool.and_eq_true, bne_iff_ne] at hp
    exact hp
  · intro si row d m sheet t hsub hsheet hrow mods kind
    rw [List.get?_eq_getElem?] at hrow
    show applyInputCb d.on_submit (Popup.input d) (collapseLines d.text_area) m = _
    rw [hsub]
    simp [applyInputCb, Model.update_transaction_member, hsheet, hrow,
      Transaction.update_label, Sheet.new]
  · intro si row d m sheet t e hsub hsheet hrow hdate mods kind
    rw [List.get?_eq_getElem?] at hrow
    show applyInputCb d.on_submit (Popup.input d) (collapseLines d.text_area) m = _
    rw [hsub]
    simp [applyInputCb, Model.update_transaction_member, hsheet, hrow,
      Transaction.update_date, hdate, Except.map]

/-- A text-input popup over the label cell (0, 1), holding the text `"food"`. -/
def dFix : InputPopupInner :=
  { text_area := ["food"], on_submit := InputCbK.insertCb 0 1 1,
    title := "Insert/Update value", subtitle := none, error := none }

/-- **C7** witness. -/
theorem input_submit_spec_witness :
    dFix.on_submit = InputCbK.insertCb 0 1 1
    ∧ mFix.get_sheet 0 = some mFix.main_sheet
    ∧ mFix.main_sheet.transactions.get? 1 = some tFix
    ∧ (Popup.input dFix).handle_key_event
        ⟨KeyCode.enter, KeyModifiers.NONE, KeyEventKind.press⟩ mFix
      = some (none, mFix.set_sheet 0 (Sheet.new mFix.main_sheet.name
          (mFix.main_sheet.transactions.set 1
            (tFix.update_label (collapseLines dFix.text_area))))) :=
  ⟨rfl, rfl, rfl,
    input_submit_spec.2.2.1 0 1 dFix mFix mFix.main_sheet tFix rfl rfl rfl
      KeyModifiers.NONE KeyEventKind.press⟩

/-- **C10** counterexample: at out-of-range sheet index 5 (the model has a
single sheet) with column 3, `update_transaction_member` panics on its `unwrap`
(`none` in this embedding) instead of returning `Ok(())` as the claim requires
for every sheet index. -/
theorem update_member_cex :
    mFix.update_transaction_member 5 0 3 "x" = none ∧ mFix.sheet_count = 1 := ⟨rfl, rfl⟩

/-- **C10** (amended): for IN-RANGE sheet index and row (out of range it panics
on `unwrap`): when the text fails to parse as a date (column 0) or as an amount
(column 2) the function returns `Err` carrying the parser's message and the
model — hence the targeted transaction — entirely unchanged, since parsing
completes before any field assignment; on a column index other than 0, 1, 2 it
returns `Ok(())` and changes nothing. -/
theorem update_member_amended (m : Model) (si row : Nat) (sheet : Sheet) (t : Transaction)
    (text : String)
    (hsheet : m.get_sheet si = some sheet) (hrow : sheet.transactions.get? row = some t) :
    (∀ e, parseDate text = Except.error e →
      m.update_transaction_member si row 0 text = some (Except.error e, m))
    ∧ (∀ e, parseAmount text = Except.error e →
      m.update_transaction_member si row 2 text = some (Except.error e, m))
    ∧ (∀ col, 2 < col →
      m.update_transaction_member si row col text = some (Except.ok (), m)) := by
  rw [List.get?_eq_getElem?] at hrow
  refine ⟨?_, ?_, ?_⟩
  · intro e he
    simp [Model.update_transaction_member, hsheet, hrow, Transaction.update_date, he,
      Except.map]
  · intro e he
    simp [Model.update_transaction_member, hsheet, hrow, Transaction.update_amount, he,
      Except.map]
  · intro col hcol
    obtain ⟨k, rfl⟩ : ∃ k, col = k + 3 := ⟨col - 3, by omega⟩
    simp [Model.update_transaction_member, hsheet, hrow]

/-- **C10** witness. -/
theorem update_member_amended_witness :
    mFix.get_sheet 0 = some mFix.main_sheet
    ∧ mFix.main_sheet.transactions.get? 0 = some tFix
    ∧ parseDate "nonsense" = Except.error ⟨"Bad format"⟩
    ∧ mFix.update_transaction_member 0 0 0 "nonsense"
        = some (Except.error ⟨"Bad format"⟩, mFix) :=
  ⟨rfl, rfl, rfl,
    (update_member_amended mFix 0 0 mFix.main_sheet tFix "nonsense" rfl rfl).1
      ⟨"Bad format"⟩ rfl⟩

end Budgeting
